import Mathlib

set_option maxRecDepth 10000

/-!
Shallow embedding of the upload handler of `go-drawing-bed` (src/main.go),
a minimal HTTP image-upload service, together with proofs of the spec's
claims about it.
-/

/-- Bytes of the uploaded stream, modelled as natural numbers `0..255`. -/
abbrev Byte := Nat

/-- An uploaded multipart file, mirroring Go's `*multipart.FileHeader`
together with the byte stream behind it: `filename` models
`FileHeader.Filename`, `size` the declared `FileHeader.Size`, and
`content` the bytes obtained when the file is opened and read. -/
structure MultipartFile where
  filename : String
  size : Nat
  content : List Byte

/-- The `static/` file tree: a map from destination path to stored content,
plus the list of directories that have been created. -/
structure Storage where
  files : String → Option (List Byte)
  dirs : List String

/-- The empty file tree, used as an initial state in concrete runs. -/
def emptyStorage : Storage :=
  { files := fun _ => none, dirs := [] }

/-- `MaxFileSize = 10 << 20` (src/main.go line 18): the maximum allowed
upload size, 10 MiB. -/
def MaxFileSize : Nat := 10 <<< 20

/-- The 400 message for oversize uploads (src/main.go line 82). -/
def compressMsg : String := "请将图片大小压缩至不超过10MB！"

/-- The 400 message for non-image uploads (src/main.go line 107). -/
def imageOnlyMsg : String := "仅允许上传图片类型！"

/-- The 200 success message (src/main.go line 124). -/
def successMsg : String := "图片上传成功！"

/-- Modelled from the spec: magic-byte match for JPEG, one of the image
signatures recognised by the sniffing library (`filetype.IsImage`, a
dependency not under src/). -/
def isJpeg (b : List Byte) : Bool :=
  b.length > 2 && b.getD 0 0 == 0xFF && b.getD 1 0 == 0xD8 && b.getD 2 0 == 0xFF

/-- Modelled from the spec: magic-byte match for PNG. -/
def isPng (b : List Byte) : Bool :=
  b.length > 3 && b.getD 0 0 == 0x89 && b.getD 1 0 == 0x50
    && b.getD 2 0 == 0x4E && b.getD 3 0 == 0x47

/-- Modelled from the spec: magic-byte match for GIF. -/
def isGif (b : List Byte) : Bool :=
  b.length > 2 && b.getD 0 0 == 0x47 && b.getD 1 0 == 0x49 && b.getD 2 0 == 0x46

/-- Modelled from the spec: magic-byte match for WEBP (RIFF container,
`WEBP` at offset 8). -/
def isWebp (b : List Byte) : Bool :=
  b.length > 11 && b.getD 8 0 == 0x57 && b.getD 9 0 == 0x45
    && b.getD 10 0 == 0x42 && b.getD 11 0 == 0x50

/-- Modelled from the spec: magic-byte match for BMP. -/
def isBmp (b : List Byte) : Bool :=
  b.length > 1 && b.getD 0 0 == 0x42 && b.getD 1 0 == 0x4D

/-- Modelled from the spec: magic-byte match for TIFF (little- or
big-endian byte-order mark). -/
def isTiff (b : List Byte) : Bool :=
  b.length > 3 &&
    ((b.getD 0 0 == 0x49 && b.getD 1 0 == 0x49
        && b.getD 2 0 == 0x2A && b.getD 3 0 == 0x00) ||
     (b.getD 0 0 == 0x4D && b.getD 1 0 == 0x4D
        && b.getD 2 0 == 0x00 && b.getD 3 0 == 0x2A))

/-- Modelled from the spec: `filetype.IsImage` (src/main.go line 106 calls
it; the library itself is a dependency, not under src/) — a table of known
image magic-byte prefixes (JPEG, PNG, GIF, WEBP, BMP, TIFF). -/
def IsImage (b : List Byte) : Bool :=
  isJpeg b || isPng b || isGif b || isWebp b || isBmp b || isTiff b

/-- The 261-byte sniff buffer obtained from a non-empty stream: Go fills
`head := make([]byte, 261)` (zero-initialised, src/main.go line 99) with
the first `min 261 (content.length)` bytes; the rest stays zero. -/
def padHead (content : List Byte) : List Byte :=
  let pre := content.take 261
  pre ++ List.replicate (261 - pre.length) 0

/-- Models the single `file.Read(head)` call (src/main.go line 100): on an
empty stream `Read` returns `(0, io.EOF)`, a non-nil error; otherwise it
returns the available bytes (up to 261) with a nil error, leaving the rest
of the fixed buffer zero. -/
def readHead (content : List Byte) : Except String (List Byte) :=
  if content.isEmpty then Except.error "EOF"
  else Except.ok (padHead content)

/-- The server's current date as produced by `time.Now()`: `Year()`,
`int(Month())`, `Day()`. -/
structure GoDate where
  year : Nat
  month : Nat
  day : Nat

/-- The destination path (src/main.go line 115):
`fmt.Sprintf("./static/%d/%d/%d/%s", year, month, day, fileName)`; Go's
`%d` prints a natural number in decimal with no padding, which is
`Nat.repr`. -/
def dstPath (now : GoDate) (fileName : String) : String :=
  "./static/" ++ Nat.repr now.year ++ "/" ++ Nat.repr now.month ++ "/"
    ++ Nat.repr now.day ++ "/" ++ fileName

/-- The directory part of the destination path. -/
def dstDir (now : GoDate) : String :=
  "./static/" ++ Nat.repr now.year ++ "/" ++ Nat.repr now.month ++ "/"
    ++ Nat.repr now.day

/-- The spec's wording of the destination path: `static/{4-digit
year}/{month number, no leading zero}/{day number, no leading zero}/
{original filename, unmodified}` — to be compared with `dstPath`, the
path built by the source. -/
def specPath (now : GoDate) (fileName : String) : String :=
  "static/" ++ Nat.repr now.year ++ "/" ++ Nat.repr now.month ++ "/"
    ++ Nat.repr now.day ++ "/" ++ fileName

/-- Whether the two filesystem-touching operations of one request (the
stream open and the destination write) succeed; models the ambient I/O
environment of the handler. -/
structure IOEnv where
  openOk : Bool
  saveOk : Bool

/-- Modelled from the spec: gin's `context.SaveUploadedFile(upload, dst)`
(src/main.go line 117; the gin library is a dependency, not under src/)
reopens the uploaded file from position 0, creates the intermediate
directories of `dst`, and writes the full content to `dst`; any I/O
failure is reported as a non-nil error. `ok` says whether the I/O
succeeds. -/
def saveUploadedFile (ok : Bool) (st : Storage) (dst dir : String)
    (content : List Byte) : Except String Storage :=
  if ok then
    Except.ok { files := fun p => if p = dst then some content else st.files p,
                dirs := dir :: st.dirs }
  else Except.error "save failed"

/-- The JSON body written by `context.JSON`: an `error` field on failure,
or a `message` and a `data` object (`name`, `url`) on success. -/
structure JsonBody where
  error : Option String := none
  message : Option String := none
  dataName : Option String := none
  dataUrl : Option String := none

/-- The outcome of one handler invocation: HTTP status, JSON body, the
resulting file tree, and which events of the handler occurred — whether
the upload stream was opened and closed, whether the size check ran,
whether the sniff read ran, and whether the destination file was
written. -/
structure HandlerResult where
  status : Nat
  body : JsonBody
  storage : Storage
  opened : Bool
  closed : Bool
  sizeChecked : Bool
  sniffed : Bool
  wrote : Bool

/-- Shallow embedding of `uploadHandler` (src/main.go lines 72-131).
`url` is the configured `Url` value; `now` the value of `time.Now()`;
`env` says which I/O operations succeed; `formFile` is the result of
`context.FormFile("file")` (the underlying error text on failure); `st`
the file tree before the request. The `defer`red `file.Close()`
(lines 92-97) runs on every return path after a successful `Open`, which
the embedding records by setting `closed` on each of those paths. -/
def uploadHandler (url : String) (now : GoDate) (env : IOEnv)
    (formFile : Except String MultipartFile) (st : Storage) : HandlerResult :=
  match formFile with
  | Except.error e =>
      { status := 500, body := { error := some e }, storage := st,
        opened := false, closed := false, sizeChecked := false,
        sniffed := false, wrote := false }
  | Except.ok upload =>
    if upload.size > MaxFileSize then
      { status := 400, body := { error := some compressMsg }, storage := st,
        opened := false, closed := false, sizeChecked := true,
        sniffed := false, wrote := false }
    else if env.openOk then
      match readHead upload.content with
      | Except.error e =>
          { status := 500, body := { error := some e }, storage := st,
            opened := true, closed := true, sizeChecked := true,
            sniffed := true, wrote := false }
      | Except.ok head =>
        if IsImage head then
          let fileName := upload.filename
          let dst := dstPath now fileName
          match saveUploadedFile env.saveOk st dst (dstDir now)
              upload.content with
          | Except.error e =>
              { status := 500, body := { error := some e }, storage := st,
                opened := true, closed := true, sizeChecked := true,
                sniffed := true, wrote := false }
          | Except.ok st2 =>
              { status := 200,
                body := { message := some successMsg,
                          dataName := some fileName,
                          dataUrl := some (url ++ dst.drop 1) },
                storage := st2,
                opened := true, closed := true, sizeChecked := true,
                sniffed := true, wrote := true }
        else
          { status := 400, body := { error := some imageOnlyMsg },
            storage := st,
            opened := true, closed := true, sizeChecked := true,
            sniffed := true, wrote := false }
    else
      { status := 500, body := { error := some "open failed" }, storage := st,
        opened := false, closed := false, sizeChecked := true,
        sniffed := false, wrote := false }

/-- A 100-byte PNG payload (the 8-byte PNG magic header followed by
zeros), `pic.png`, as in the spec's scenario. -/
def pngContent : List Byte :=
  [0x89, 0x50, 0x4E, 0x47, 0x0D, 0x0A, 0x1A, 0x0A] ++ List.replicate 92 0

example : IsImage (padHead pngContent) = true := by decide

example : IsImage (padHead (List.replicate 10 0)) = false := by decide

example : readHead [] = Except.error "EOF" := rfl

example : MaxFileSize = 10 * 2 ^ 20 := by decide

/-- One unfolding step of `Nat.toDigitsCore`, the loop behind `Nat.repr`
(the decimal rendering used by Go's `%d`). -/
theorem toDigitsCore_succ (f n : Nat) (ds : List Char) :
    Nat.toDigitsCore 10 (f+1) n ds =
      if n / 10 = 0 then Nat.digitChar (n % 10) :: ds
      else Nat.toDigitsCore 10 f (n / 10) (Nat.digitChar (n % 10) :: ds) := rfl

/-- A number between 1000 and 9999 renders as exactly four decimal
digits. -/
theorem repr_len_four (n : Nat) (h1 : 1000 ≤ n) (h2 : n < 10000) :
    (Nat.repr n).length = 4 := by
  obtain ⟨k, rfl⟩ := Nat.exists_eq_add_of_le h1
  unfold Nat.repr Nat.toDigits
  rw [toDigitsCore_succ, if_neg (by omega)]
  have e1 : 1000 + k = (999 + k) + 1 := by omega
  rw [e1, toDigitsCore_succ, if_neg (by omega)]
  have e2 : 999 + k = (998 + k) + 1 := by omega
  rw [e2, toDigitsCore_succ, if_neg (by omega)]
  have e3 : 998 + k = (997 + k) + 1 := by omega
  rw [e3, toDigitsCore_succ, if_pos (by omega)]
  rfl

/-- A number between 1 and 31 (a month or day number) renders with no
leading zero. -/
theorem repr_no_lead_zero :
    ∀ m : Nat, m < 32 → 1 ≤ m → (Nat.repr m).toList.head? ≠ some '0' := by
  decide

/-- String concatenation is associative. -/
theorem string_append_assoc (a b c : String) : a ++ b ++ c = a ++ (b ++ c) :=
  String.ext (List.append_assoc a.data b.data c.data)

/-- The path built by the source (`./static/...`) is the spec's path
(`static/...`) under the current directory. -/
theorem dstPath_eq_dot_specPath (now : GoDate) (f : String) :
    dstPath now f = "./" ++ specPath now f := by
  unfold dstPath specPath
  rw [show ("./static/" : String) = "./" ++ "static/" from rfl]
  simp only [string_append_assoc]

/-- On the all-checks-pass path the handler returns 200 with the success
body and stores the full content at the destination path, recording the
created directory. -/
theorem uploadHandler_ok_eq (url : String) (now : GoDate) (env : IOEnv)
    (upload : MultipartFile) (st : Storage)
    (hopen : env.openOk = true) (hsave : env.saveOk = true)
    (hsize : upload.size ≤ MaxFileSize)
    (hne : upload.content ≠ [])
    (himg : IsImage (padHead upload.content) = true) :
    uploadHandler url now env (Except.ok upload) st =
      { status := 200,
        body := { message := some successMsg,
                  dataName := some upload.filename,
                  dataUrl := some (url ++ (dstPath now upload.filename).drop 1) },
        storage := { files := fun p =>
                       if p = dstPath now upload.filename then
                         some upload.content
                       else st.files p,
                     dirs := dstDir now :: st.dirs },
        opened := true, closed := true, sizeChecked := true,
        sniffed := true, wrote := true } := by
  have hempty : upload.content.isEmpty = false := by
    cases h : upload.content with
    | nil => exact absurd h hne
    | cons a t => rfl
  have hr : readHead upload.content = Except.ok (padHead upload.content) := by
    simp [readHead, hempty]
  have hgt : ¬ upload.size > MaxFileSize := by omega
  simp [uploadHandler, hr, hgt, hopen, himg, saveUploadedFile, hsave]

/-- Claim C1: for every multipart upload whose declared size is under
10 MiB and whose sniffed 261-byte buffer matches a known image signature
(with the I/O environment healthy, the stream non-empty, and the date in
its calendar ranges), the handler responds HTTP 200 and the file is
stored at `static/<year>/<month>/<day>/<filename>` under the current
directory, with the year rendered as 4 digits, month and day with no
leading zeros, and the filename unmodified. -/
theorem c1_upload_success (url : String) (now : GoDate) (env : IOEnv)
    (upload : MultipartFile) (st : Storage)
    (hopen : env.openOk = true) (hsave : env.saveOk = true)
    (hsize : upload.size < 10 * 2 ^ 20)
    (hne : upload.content ≠ [])
    (himg : IsImage (padHead upload.content) = true)
    (hyear1 : 1000 ≤ now.year) (hyear2 : now.year < 10000)
    (hmonth1 : 1 ≤ now.month) (hmonth2 : now.month ≤ 12)
    (hday1 : 1 ≤ now.day) (hday2 : now.day ≤ 31) :
    (uploadHandler url now env (Except.ok upload) st).status = 200 ∧
    (uploadHandler url now env (Except.ok upload) st).storage.files
        (dstPath now upload.filename) = some upload.content ∧
    dstPath now upload.filename = "./" ++ specPath now upload.filename ∧
    (Nat.repr now.year).length = 4 ∧
    (Nat.repr now.month).toList.head? ≠ some '0' ∧
    (Nat.repr now.day).toList.head? ≠ some '0' := by
  have hmax : upload.size ≤ MaxFileSize := by
    have h : MaxFileSize = 10 * 2 ^ 20 := by decide
    omega
  rw [uploadHandler_ok_eq url now env upload st hopen hsave hmax hne himg]
  refine ⟨rfl, by simp, dstPath_eq_dot_specPath now upload.filename,
    repr_len_four now.year hyear1 hyear2,
    repr_no_lead_zero now.month (by omega) hmonth1,
    repr_no_lead_zero now.day (by omega) hday1⟩

/-- Witness for C1: the spec's scenario — a 100-byte PNG named `pic.png`
on date 2024-03-05. -/
theorem c1_upload_success_witness :
    (uploadHandler "http://127.0.0.1:8080" ⟨2024, 3, 5⟩ ⟨true, true⟩
        (Except.ok ⟨"pic.png", 100, pngContent⟩) emptyStorage).status = 200 ∧
    (uploadHandler "http://127.0.0.1:8080" ⟨2024, 3, 5⟩ ⟨true, true⟩
        (Except.ok ⟨"pic.png", 100, pngContent⟩) emptyStorage).storage.files
        (dstPath ⟨2024, 3, 5⟩ "pic.png") = some pngContent ∧
    dstPath ⟨2024, 3, 5⟩ "pic.png" = "./" ++ specPath ⟨2024, 3, 5⟩ "pic.png" ∧
    (Nat.repr 2024).length = 4 ∧
    (Nat.repr 3).toList.head? ≠ some '0' ∧
    (Nat.repr 5).toList.head? ≠ some '0' :=
  c1_upload_success "http://127.0.0.1:8080" ⟨2024, 3, 5⟩ ⟨true, true⟩
    ⟨"pic.png", 100, pngContent⟩ emptyStorage rfl rfl (by decide) (by decide)
    (by decide) (by decide) (by decide) (by decide) (by decide) (by decide)
    (by decide)

/-- A PNG payload whose declared size is exactly 10 MiB (10 × 2^20
bytes): the PNG magic prefix followed by zeros up to 10485760 bytes. -/
def tenMiBPng : MultipartFile :=
  { filename := "big.png", size := 10 <<< 20,
    content := [0x89, 0x50, 0x4E, 0x47] ++ List.replicate (10 <<< 20 - 4) 0 }

/-- Counterexample to claim C2 as stated: the source checks
`upload.Size > MaxFileSize` (src/main.go line 81), a strict comparison,
so an upload whose declared size is exactly 10 MiB — which is "at least
10 MiB" — is NOT rejected with 400: the handler opens the stream, writes
the file and responds 200. -/
theorem c2_counterexample :
    tenMiBPng.size = 10 * 2 ^ 20 ∧
    (uploadHandler "http://127.0.0.1:8080" ⟨2024, 3, 5⟩ ⟨true, true⟩
        (Except.ok tenMiBPng) emptyStorage).status = 200 ∧
    (uploadHandler "http://127.0.0.1:8080" ⟨2024, 3, 5⟩ ⟨true, true⟩
        (Except.ok tenMiBPng) emptyStorage).opened = true ∧
    (uploadHandler "http://127.0.0.1:8080" ⟨2024, 3, 5⟩ ⟨true, true⟩
        (Except.ok tenMiBPng) emptyStorage).wrote = true := by
  refine ⟨by decide, ?_, ?_, ?_⟩ <;>
    · rw [uploadHandler_ok_eq _ _ _ _ _ rfl rfl (by decide)
        (by decide) (by decide)]

/-- Claim C2 (amended): for every upload whose declared size is strictly
greater than 10 MiB, the handler responds HTTP 400 with the
compress-the-image message, before opening the upload stream and without
touching the filesystem. -/
theorem c2_oversize_rejected (url : String) (now : GoDate) (env : IOEnv)
    (upload : MultipartFile) (st : Storage)
    (hsize : upload.size > 10 * 2 ^ 20) :
    (uploadHandler url now env (Except.ok upload) st).status = 400 ∧
    (uploadHandler url now env (Except.ok upload) st).body.error
      = some compressMsg ∧
    (uploadHandler url now env (Except.ok upload) st).opened = false ∧
    (uploadHandler url now env (Except.ok upload) st).sniffed = false ∧
    (uploadHandler url now env (Except.ok upload) st).wrote = false ∧
    (uploadHandler url now env (Except.ok upload) st).storage = st := by
  have hgt : upload.size > MaxFileSize := by
    have h : MaxFileSize = 10 * 2 ^ 20 := by decide
    omega
  simp [uploadHandler, hgt]

/-- Witness for the amended C2: an upload declaring 11,000,000 bytes
(the spec's scenario) is rejected with 400 before any stream is
opened. -/
theorem c2_oversize_rejected_witness :
    (uploadHandler "http://127.0.0.1:8080" ⟨2024, 3, 5⟩ ⟨true, true⟩
        (Except.ok ⟨"big.bin", 11000000, []⟩) emptyStorage).status = 400 ∧
    (uploadHandler "http://127.0.0.1:8080" ⟨2024, 3, 5⟩ ⟨true, true⟩
        (Except.ok ⟨"big.bin", 11000000, []⟩) emptyStorage).body.error
      = some compressMsg ∧
    (uploadHandler "http://127.0.0.1:8080" ⟨2024, 3, 5⟩ ⟨true, true⟩
        (Except.ok ⟨"big.bin", 11000000, []⟩) emptyStorage).opened = false ∧
    (uploadHandler "http://127.0.0.1:8080" ⟨2024, 3, 5⟩ ⟨true, true⟩
        (Except.ok ⟨"big.bin", 11000000, []⟩) emptyStorage).sniffed = false ∧
    (uploadHandler "http://127.0.0.1:8080" ⟨2024, 3, 5⟩ ⟨true, true⟩
        (Except.ok ⟨"big.bin", 11000000, []⟩) emptyStorage).wrote = false ∧
    (uploadHandler "http://127.0.0.1:8080" ⟨2024, 3, 5⟩ ⟨true, true⟩
        (Except.ok ⟨"big.bin", 11000000, []⟩) emptyStorage).storage
      = emptyStorage :=
  c2_oversize_rejected "http://127.0.0.1:8080" ⟨2024, 3, 5⟩ ⟨true, true⟩
    ⟨"big.bin", 11000000, []⟩ emptyStorage (by decide)

/-- A non-empty stream's sniff read succeeds with the (zero-padded)
261-byte buffer. -/
theorem readHead_ok (content : List Byte) (hne : content ≠ []) :
    readHead content = Except.ok (padHead content) := by
  have hempty : content.isEmpty = false := by
    cases h : content with
    | nil => exact absurd h hne
    | cons a t => rfl
  simp [readHead, hempty]

/-- On the non-image path (size check passed, stream opened, sniff read
succeeded, signature check failed) the handler returns 400 with the
images-only message and leaves the file tree unchanged. -/
theorem uploadHandler_nonimage_eq (url : String) (now : GoDate) (env : IOEnv)
    (upload : MultipartFile) (st : Storage)
    (hopen : env.openOk = true)
    (hsize : upload.size ≤ MaxFileSize)
    (hne : upload.content ≠ [])
    (himg : IsImage (padHead upload.content) = false) :
    uploadHandler url now env (Except.ok upload) st =
      { status := 400, body := { error := some imageOnlyMsg }, storage := st,
        opened := true, closed := true, sizeChecked := true,
        sniffed := true, wrote := false } := by
  have hr := readHead_ok upload.content hne
  have hgt : ¬ upload.size > MaxFileSize := by omega
  simp [uploadHandler, hr, hgt, hopen, himg]

/-- On the save-failure path (all checks passed but the write fails) the
handler returns 500 and leaves the file tree unchanged. -/
theorem uploadHandler_savefail_eq (url : String) (now : GoDate) (env : IOEnv)
    (upload : MultipartFile) (st : Storage)
    (hopen : env.openOk = true) (hsave : env.saveOk = false)
    (hsize : upload.size ≤ MaxFileSize)
    (hne : upload.content ≠ [])
    (himg : IsImage (padHead upload.content) = true) :
    uploadHandler url now env (Except.ok upload) st =
      { status := 500, body := { error := some "save failed" }, storage := st,
        opened := true, closed := true, sizeChecked := true,
        sniffed := true, wrote := false } := by
  have hr := readHead_ok upload.content hne
  have hgt : ¬ upload.size > MaxFileSize := by omega
  simp [uploadHandler, hr, hgt, hopen, himg, saveUploadedFile, hsave]

/-- Claim C3: for every upload whose sniffed 261-byte buffer does not
match a known image signature (the request having passed extraction, the
size check, the stream open and the sniff read), the handler responds
HTTP 400 with the images-only message and nothing is written to disk. -/
theorem c3_non_image_rejected (url : String) (now : GoDate) (env : IOEnv)
    (upload : MultipartFile) (st : Storage)
    (hopen : env.openOk = true)
    (hsize : upload.size ≤ MaxFileSize)
    (hne : upload.content ≠ [])
    (himg : IsImage (padHead upload.content) = false) :
    (uploadHandler url now env (Except.ok upload) st).status = 400 ∧
    (uploadHandler url now env (Except.ok upload) st).body.error
      = some imageOnlyMsg ∧
    (uploadHandler url now env (Except.ok upload) st).wrote = false ∧
    (uploadHandler url now env (Except.ok upload) st).storage = st := by
  rw [uploadHandler_nonimage_eq url now env upload st hopen hsize hne himg]
  exact ⟨rfl, rfl, rfl, rfl⟩

/-- Witness for C3: a payload starting with the PDF magic bytes `%PDF`
is rejected with 400 and the file tree is untouched. -/
theorem c3_non_image_rejected_witness :
    (uploadHandler "http://127.0.0.1:8080" ⟨2024, 3, 5⟩ ⟨true, true⟩
        (Except.ok ⟨"doc.pdf", 4, [0x25, 0x50, 0x44, 0x46]⟩)
        emptyStorage).status = 400 ∧
    (uploadHandler "http://127.0.0.1:8080" ⟨2024, 3, 5⟩ ⟨true, true⟩
        (Except.ok ⟨"doc.pdf", 4, [0x25, 0x50, 0x44, 0x46]⟩)
        emptyStorage).body.error = some imageOnlyMsg ∧
    (uploadHandler "http://127.0.0.1:8080" ⟨2024, 3, 5⟩ ⟨true, true⟩
        (Except.ok ⟨"doc.pdf", 4, [0x25, 0x50, 0x44, 0x46]⟩)
        emptyStorage).wrote = false ∧
    (uploadHandler "http://127.0.0.1:8080" ⟨2024, 3, 5⟩ ⟨true, true⟩
        (Except.ok ⟨"doc.pdf", 4, [0x25, 0x50, 0x44, 0x46]⟩)
        emptyStorage).storage = emptyStorage :=
  c3_non_image_rejected "http://127.0.0.1:8080" ⟨2024, 3, 5⟩ ⟨true, true⟩
    ⟨"doc.pdf", 4, [0x25, 0x50, 0x44, 0x46]⟩ emptyStorage rfl (by decide)
    (by decide) (by decide)

/-- Claim C5: for every uploaded file smaller than 261 bytes whose read
does not fail outright (the stream is non-empty), the sniff read
succeeds — a short read is not a separate error — and the buffer it
yields is exactly the short content obtained, zero-padded to the fixed
261-byte buffer; the handler rejects with 400 precisely when the same
signature check fails on that buffer. In particular a 10-byte all-zero
payload fails the signature check. -/
theorem c5_short_read_sniffed (url : String) (now : GoDate) (env : IOEnv)
    (upload : MultipartFile) (st : Storage)
    (hopen : env.openOk = true)
    (hsize : upload.size ≤ MaxFileSize)
    (hne : upload.content ≠ [])
    (hshort : upload.content.length < 261) :
    readHead upload.content = Except.ok (padHead upload.content) ∧
    padHead upload.content
      = upload.content ++ List.replicate (261 - upload.content.length) 0 ∧
    ((uploadHandler url now env (Except.ok upload) st).status = 400 ↔
      IsImage (padHead upload.content) = false) ∧
    (IsImage (padHead upload.content) = false →
      (uploadHandler url now env (Except.ok upload) st).body.error
        = some imageOnlyMsg ∧
      (uploadHandler url now env (Except.ok upload) st).storage = st) ∧
    IsImage (padHead (List.replicate 10 0)) = false := by
  have htake : upload.content.take 261 = upload.content :=
    List.take_of_length_le (Nat.le_of_lt hshort)
  refine ⟨readHead_ok upload.content hne, ?_, ?_, ?_, by decide⟩
  · simp [padHead, htake]
  · by_cases himg : IsImage (padHead upload.content) = true
    · simp only [himg]
      cases henv : env.saveOk with
      | false =>
          rw [uploadHandler_savefail_eq url now env upload st hopen henv
            hsize hne himg]
          simp
      | true =>
          rw [uploadHandler_ok_eq url now env upload st hopen henv hsize
            hne himg]
          simp
    · have himg' : IsImage (padHead upload.content) = false :=
        Bool.eq_false_iff.mpr himg
      rw [uploadHandler_nonimage_eq url now env upload st hopen hsize hne
        himg']
      simp [himg']
  · intro himg'
    rw [uploadHandler_nonimage_eq url now env upload st hopen hsize hne
      himg']
    exact ⟨rfl, rfl⟩

/-- Witness for C5: a 10-byte all-zero payload named `blob.bin` — the
read succeeds, the buffer is the ten zero bytes padded with 251 more, the
signature check fails on it, and the handler responds 400 with the
images-only message, leaving the file tree unchanged. -/
theorem c5_short_read_sniffed_witness :
    (readHead (List.replicate 10 0)
        = Except.ok (padHead (List.replicate 10 0)) ∧
      padHead (List.replicate 10 0)
        = List.replicate 10 0
            ++ List.replicate (261 - (List.replicate 10 (0 : Byte)).length) 0 ∧
      ((uploadHandler "http://127.0.0.1:8080" ⟨2024, 3, 5⟩ ⟨true, true⟩
          (Except.ok ⟨"blob.bin", 10, List.replicate 10 0⟩)
          emptyStorage).status = 400 ↔
        IsImage (padHead (List.replicate 10 0)) = false) ∧
      (IsImage (padHead (List.replicate 10 0)) = false →
        (uploadHandler "http://127.0.0.1:8080" ⟨2024, 3, 5⟩ ⟨true, true⟩
            (Except.ok ⟨"blob.bin", 10, List.replicate 10 0⟩)
            emptyStorage).body.error = some imageOnlyMsg ∧
        (uploadHandler "http://127.0.0.1:8080" ⟨2024, 3, 5⟩ ⟨true, true⟩
            (Except.ok ⟨"blob.bin", 10, List.replicate 10 0⟩)
            emptyStorage).storage = emptyStorage) ∧
      IsImage (padHead (List.replicate 10 0)) = false) ∧
    (uploadHandler "http://127.0.0.1:8080" ⟨2024, 3, 5⟩ ⟨true, true⟩
        (Except.ok ⟨"blob.bin", 10, List.replicate 10 0⟩)
        emptyStorage).status = 400 :=
  have h := c5_short_read_sniffed "http://127.0.0.1:8080" ⟨2024, 3, 5⟩
    ⟨true, true⟩ ⟨"blob.bin", 10, List.replicate 10 0⟩ emptyStorage rfl
    (by decide) (by decide) (by decide)
  ⟨h, h.2.2.1.mpr h.2.2.2.2⟩

/-- Claim C10: for an uploaded file of exactly zero bytes, the sniff read
fails outright (end of data with no bytes read, Go's `io.EOF`), so the
handler responds HTTP 500 — not the 400 image rejection — and nothing is
written to disk. -/
theorem c10_empty_file_500 (url : String) (now : GoDate) (env : IOEnv)
    (upload : MultipartFile) (st : Storage)
    (hopen : env.openOk = true)
    (hsize : upload.size ≤ MaxFileSize)
    (hempty : upload.content = []) :
    readHead upload.content = Except.error "EOF" ∧
    (uploadHandler url now env (Except.ok upload) st).status = 500 ∧
    (uploadHandler url now env (Except.ok upload) st).body.error
      = some "EOF" ∧
    (uploadHandler url now env (Except.ok upload) st).wrote = false ∧
    (uploadHandler url now env (Except.ok upload) st).storage = st := by
  have hr : readHead upload.content = Except.error "EOF" := by
    rw [hempty]; rfl
  have hgt : ¬ upload.size > MaxFileSize := by omega
  refine ⟨hr, ?_⟩
  simp [uploadHandler, hr, hgt, hopen]

/-- Witness for C10: an empty upload named `empty.png` yields 500 and an
untouched file tree. -/
theorem c10_empty_file_500_witness :
    readHead ([] : List Byte) = Except.error "EOF" ∧
    (uploadHandler "http://127.0.0.1:8080" ⟨2024, 3, 5⟩ ⟨true, true⟩
        (Except.ok ⟨"empty.png", 0, []⟩) emptyStorage).status = 500 ∧
    (uploadHandler "http://127.0.0.1:8080" ⟨2024, 3, 5⟩ ⟨true, true⟩
        (Except.ok ⟨"empty.png", 0, []⟩) emptyStorage).body.error
      = some "EOF" ∧
    (uploadHandler "http://127.0.0.1:8080" ⟨2024, 3, 5⟩ ⟨true, true⟩
        (Except.ok ⟨"empty.png", 0, []⟩) emptyStorage).wrote = false ∧
    (uploadHandler "http://127.0.0.1:8080" ⟨2024, 3, 5⟩ ⟨true, true⟩
        (Except.ok ⟨"empty.png", 0, []⟩) emptyStorage).storage
      = emptyStorage :=
  c10_empty_file_500 "http://127.0.0.1:8080" ⟨2024, 3, 5⟩ ⟨true, true⟩
    ⟨"empty.png", 0, []⟩ emptyStorage rfl (by decide) rfl

/-- Claim C4: on a successful upload the file persisted at the
destination contains the full uploaded content (the stream reopened from
position 0, not just the bytes left after the 261-byte sniff read), the
date directory is created, and an I/O failure during persistence yields
HTTP 500 (with nothing recorded as written). -/
theorem c4_persist_full_content (url : String) (now : GoDate) (env : IOEnv)
    (upload : MultipartFile) (st : Storage)
    (hopen : env.openOk = true)
    (hsize : upload.size ≤ MaxFileSize)
    (hne : upload.content ≠ [])
    (himg : IsImage (padHead upload.content) = true) :
    (env.saveOk = true →
      (uploadHandler url now env (Except.ok upload) st).status = 200 ∧
      (uploadHandler url now env (Except.ok upload) st).storage.files
          (dstPath now upload.filename) = some upload.content ∧
      dstDir now ∈
        (uploadHandler url now env (Except.ok upload) st).storage.dirs) ∧
    (env.saveOk = false →
      (uploadHandler url now env (Except.ok upload) st).status = 500 ∧
      (uploadHandler url now env (Except.ok upload) st).wrote = false ∧
      (uploadHandler url now env (Except.ok upload) st).storage = st) := by
  constructor
  · intro hsave
    rw [uploadHandler_ok_eq url now env upload st hopen hsave hsize hne himg]
    exact ⟨rfl, by simp, by simp⟩
  · intro hsave
    rw [uploadHandler_savefail_eq url now env upload st hopen hsave hsize
      hne himg]
    exact ⟨rfl, rfl, rfl⟩

/-- Witness for C4: the 100-byte PNG with a healthy I/O environment. -/
theorem c4_persist_full_content_witness :
    ((⟨true, true⟩ : IOEnv).saveOk = true →
      (uploadHandler "http://127.0.0.1:8080" ⟨2024, 3, 5⟩ ⟨true, true⟩
          (Except.ok ⟨"pic2.png", 100, pngContent⟩) emptyStorage).status
        = 200 ∧
      (uploadHandler "http://127.0.0.1:8080" ⟨2024, 3, 5⟩ ⟨true, true⟩
          (Except.ok ⟨"pic2.png", 100, pngContent⟩) emptyStorage).storage.files
          (dstPath ⟨2024, 3, 5⟩ "pic2.png") = some pngContent ∧
      dstDir ⟨2024, 3, 5⟩ ∈
        (uploadHandler "http://127.0.0.1:8080" ⟨2024, 3, 5⟩ ⟨true, true⟩
            (Except.ok ⟨"pic2.png", 100, pngContent⟩)
            emptyStorage).storage.dirs) ∧
    ((⟨true, true⟩ : IOEnv).saveOk = false →
      (uploadHandler "http://127.0.0.1:8080" ⟨2024, 3, 5⟩ ⟨true, true⟩
          (Except.ok ⟨"pic2.png", 100, pngContent⟩) emptyStorage).status
        = 500 ∧
      (uploadHandler "http://127.0.0.1:8080" ⟨2024, 3, 5⟩ ⟨true, true⟩
          (Except.ok ⟨"pic2.png", 100, pngContent⟩) emptyStorage).wrote
        = false ∧
      (uploadHandler "http://127.0.0.1:8080" ⟨2024, 3, 5⟩ ⟨true, true⟩
          (Except.ok ⟨"pic2.png", 100, pngContent⟩) emptyStorage).storage
        = emptyStorage) :=
  c4_persist_full_content "http://127.0.0.1:8080" ⟨2024, 3, 5⟩ ⟨true, true⟩
    ⟨"pic2.png", 100, pngContent⟩ emptyStorage rfl (by decide) (by decide)
    (by decide)

/-- Dropping the first character of the source's destination path strips
exactly the leading `.`, leaving `/static/...`. -/
theorem dstPath_drop_one (now : GoDate) (f : String) :
    (dstPath now f).drop 1 = "/" ++ specPath now f := by
  apply String.ext
  rw [dstPath_eq_dot_specPath, String.data_drop]
  rfl

/-- Claim C6: on every successful upload the JSON body contains the
success message and a data object whose `name` is the original filename
and whose `url` is the configured URL value concatenated with the
destination path with its leading `.` stripped. -/
theorem c6_success_body (url : String) (now : GoDate) (env : IOEnv)
    (upload : MultipartFile) (st : Storage)
    (hopen : env.openOk = true) (hsave : env.saveOk = true)
    (hsize : upload.size ≤ MaxFileSize)
    (hne : upload.content ≠ [])
    (himg : IsImage (padHead upload.content) = true) :
    (uploadHandler url now env (Except.ok upload) st).status = 200 ∧
    (uploadHandler url now env (Except.ok upload) st).body.message
      = some successMsg ∧
    (uploadHandler url now env (Except.ok upload) st).body.dataName
      = some upload.filename ∧
    (uploadHandler url now env (Except.ok upload) st).body.dataUrl
      = some (url ++ (dstPath now upload.filename).drop 1) ∧
    (dstPath now upload.filename).drop 1
      = "/" ++ specPath now upload.filename := by
  rw [uploadHandler_ok_eq url now env upload st hopen hsave hsize hne himg]
  exact ⟨rfl, rfl, rfl, rfl, dstPath_drop_one now upload.filename⟩

/-- Witness for C6: the 100-byte PNG upload's response body. -/
theorem c6_success_body_witness :
    (uploadHandler "http://127.0.0.1:8080" ⟨2024, 3, 5⟩ ⟨true, true⟩
        (Except.ok ⟨"pic3.png", 100, pngContent⟩) emptyStorage).status
      = 200 ∧
    (uploadHandler "http://127.0.0.1:8080" ⟨2024, 3, 5⟩ ⟨true, true⟩
        (Except.ok ⟨"pic3.png", 100, pngContent⟩) emptyStorage).body.message
      = some successMsg ∧
    (uploadHandler "http://127.0.0.1:8080" ⟨2024, 3, 5⟩ ⟨true, true⟩
        (Except.ok ⟨"pic3.png", 100, pngContent⟩) emptyStorage).body.dataName
      = some "pic3.png" ∧
    (uploadHandler "http://127.0.0.1:8080" ⟨2024, 3, 5⟩ ⟨true, true⟩
        (Except.ok ⟨"pic3.png", 100, pngContent⟩) emptyStorage).body.dataUrl
      = some ("http://127.0.0.1:8080"
          ++ (dstPath ⟨2024, 3, 5⟩ "pic3.png").drop 1) ∧
    (dstPath ⟨2024, 3, 5⟩ "pic3.png").drop 1
      = "/" ++ specPath ⟨2024, 3, 5⟩ "pic3.png" :=
  c6_success_body "http://127.0.0.1:8080" ⟨2024, 3, 5⟩ ⟨true, true⟩
    ⟨"pic3.png", 100, pngContent⟩ emptyStorage rfl rfl (by decide)
    (by decide) (by decide)

/-- Claim C7: if extracting the `file` form field fails, the handler
responds HTTP 500 with the underlying extraction error text in the JSON
`error` field, and performs no size check, no stream open, no sniff and
no write. -/
theorem c7_extraction_error (url : String) (now : GoDate) (env : IOEnv)
    (e : String) (st : Storage) :
    (uploadHandler url now env (Except.error e) st).status = 500 ∧
    (uploadHandler url now env (Except.error e) st).body.error = some e ∧
    (uploadHandler url now env (Except.error e) st).sizeChecked = false ∧
    (uploadHandler url now env (Except.error e) st).opened = false ∧
    (uploadHandler url now env (Except.error e) st).sniffed = false ∧
    (uploadHandler url now env (Except.error e) st).wrote = false ∧
    (uploadHandler url now env (Except.error e) st).storage = st :=
  ⟨rfl, rfl, rfl, rfl, rfl, rfl, rfl⟩

/-- Claim C8: the destination path is deterministic in the filename and
the server's current date, so a second upload with the same filename on
the same date targets the same path and silently overwrites the first:
afterwards the stored content is the second upload's content. -/
theorem c8_same_path_overwrites (url : String) (now : GoDate) (env : IOEnv)
    (u1 u2 : MultipartFile) (st : Storage)
    (hopen : env.openOk = true) (hsave : env.saveOk = true)
    (hsize1 : u1.size ≤ MaxFileSize) (hne1 : u1.content ≠ [])
    (himg1 : IsImage (padHead u1.content) = true)
    (hsize2 : u2.size ≤ MaxFileSize) (hne2 : u2.content ≠ [])
    (himg2 : IsImage (padHead u2.content) = true)
    (hname : u1.filename = u2.filename) :
    dstPath now u1.filename = dstPath now u2.filename ∧
    (uploadHandler url now env (Except.ok u2)
        (uploadHandler url now env (Except.ok u1) st).storage).storage.files
      (dstPath now u1.filename) = some u2.content := by
  constructor
  · rw [hname]
  · rw [uploadHandler_ok_eq url now env u1 st hopen hsave hsize1 hne1 himg1]
    rw [uploadHandler_ok_eq url now env u2 _ hopen hsave hsize2 hne2 himg2]
    simp [hname]

/-- Witness for C8: two PNG uploads named `same.png` on the same date;
the second's content (a GIF-free PNG with one extra byte pattern) is what
remains stored. -/
theorem c8_same_path_overwrites_witness :
    dstPath ⟨2024, 3, 5⟩ "same.png" = dstPath ⟨2024, 3, 5⟩ "same.png" ∧
    (uploadHandler "http://127.0.0.1:8080" ⟨2024, 3, 5⟩ ⟨true, true⟩
        (Except.ok ⟨"same.png", 8, [0x89, 0x50, 0x4E, 0x47, 1, 1, 1, 1]⟩)
        (uploadHandler "http://127.0.0.1:8080" ⟨2024, 3, 5⟩ ⟨true, true⟩
          (Except.ok ⟨"same.png", 100, pngContent⟩)
          emptyStorage).storage).storage.files
      (dstPath ⟨2024, 3, 5⟩ "same.png")
      = some [0x89, 0x50, 0x4E, 0x47, 1, 1, 1, 1] :=
  c8_same_path_overwrites "http://127.0.0.1:8080" ⟨2024, 3, 5⟩ ⟨true, true⟩
    ⟨"same.png", 100, pngContent⟩ ⟨"same.png", 8, [0x89, 0x50, 0x4E, 0x47, 1, 1, 1, 1]⟩
    emptyStorage rfl rfl (by decide) (by decide) (by decide) (by decide)
    (by decide) (by decide) rfl

/-- The embedding records the stream as closed exactly when it records it
as opened: the `defer`red close runs on every return path after a
successful open. -/
theorem uploadHandler_closed_eq_opened (url : String) (now : GoDate)
    (env : IOEnv) (formFile : Except String MultipartFile) (st : Storage) :
    (uploadHandler url now env formFile st).closed
      = (uploadHandler url now env formFile st).opened := by
  rcases formFile with e | upload
  · rfl
  · simp only [uploadHandler]
    by_cases h1 : upload.size > MaxFileSize
    · simp [h1]
    · by_cases h2 : env.openOk = true
      · rcases hr : readHead upload.content with e2 | head
        · simp [h1, h2, hr]
        · by_cases h3 : IsImage head = true
          · rcases hs : saveUploadedFile env.saveOk st
                (dstPath now upload.filename) (dstDir now) upload.content
              with e3 | st2
            · simp [h1, h2, hr, h3, hs]
            · simp [h1, h2, hr, h3, hs]
          · simp [h1, h2, hr, h3]
      · simp [h1, h2]

/-- Claim C9: after the upload stream is successfully opened, it is
closed on every exit path of the handler — sniff-read failure, non-image
rejection, persistence failure, and success alike. -/
theorem c9_stream_closed (url : String) (now : GoDate) (env : IOEnv)
    (formFile : Except String MultipartFile) (st : Storage)
    (h : (uploadHandler url now env formFile st).opened = true) :
    (uploadHandler url now env formFile st).closed = true := by
  rw [uploadHandler_closed_eq_opened url now env formFile st]
  exact h

/-- Witness for C9: the non-image rejection path of the 10-byte all-zero
upload opens the stream and closes it. -/
theorem c9_stream_closed_witness :
    (uploadHandler "http://127.0.0.1:8080" ⟨2024, 3, 5⟩ ⟨true, true⟩
        (Except.ok ⟨"blob2.bin", 10, List.replicate 10 0⟩)
        emptyStorage).closed = true :=
  c9_stream_closed "http://127.0.0.1:8080" ⟨2024, 3, 5⟩ ⟨true, true⟩
    (Except.ok ⟨"blob2.bin", 10, List.replicate 10 0⟩) emptyStorage
    (by decide)
